import Mathlib

/-!
Shallow embedding of the Frontpage-Generator application (src/main.py).

The relational catalog (streams, semesters, subjects, subject offerings)
and the generation ledger are modelled as lists of records inside a `DB`
state; every route handler becomes a pure state-passing function returning
an `Except`-style result together with the updated state.  Python string
operations (`strip`, `lower`, truthiness defaults) are modelled on the
character lists of Lean strings.  Autoincrement primary keys are modelled
with explicit `next_*` counters; deleting a row by primary key is modelled
by filtering that id out.
-/

namespace Frontpage

/-- `str.strip()`: drop whitespace from both ends. -/
def pyStrip (s : String) : String :=
  ⟨((s.data.dropWhile Char.isWhitespace).reverse.dropWhile Char.isWhitespace).reverse⟩

/-- `str.lower()` / SQL `lower()`: ASCII lower-casing, character by character. -/
def pyLower (s : String) : String :=
  ⟨s.data.map Char.toLower⟩

/-- `payload.get(k) or d`: `None` and the empty string are falsy. -/
def pyOr (v : Option String) (d : String) : String :=
  match v with
  | none => d
  | some s => if s = "" then d else s

/-- `s or d` for a string already in hand. -/
def pyOrS (s d : String) : String :=
  if s = "" then d else s

/-- `str.replace(" ", "-")`. -/
def hyphenate (s : String) : String :=
  ⟨s.data.map (fun c => if c = ' ' then '-' else c)⟩

/-- Row of the `semesters` table. -/
structure Semester where
  id : Nat
  label : String
  order_index : Nat
deriving DecidableEq

/-- Row of the `streams` table. -/
structure Stream where
  id : Nat
  name : String
  short_code : String
deriving DecidableEq

/-- Row of the `subjects` table. -/
structure Subject where
  id : Nat
  name : String
  code : String
deriving DecidableEq

/-- Row of the `subject_offerings` join table. -/
structure SubjectOffering where
  id : Nat
  subject_id : Nat
  semester_id : Nat
deriving DecidableEq

/-- Row of the `generation_logs` table.  `created_at` is an abstract
UTC timestamp (larger = later). -/
structure GenerationLog where
  created_at : Nat
  student_name : String
  roll : String
  registration : String
  subject_name : String
  subject_code : String
  stream_label : String
  semester_label : String
  subject_id : Nat
  stream_id : Nat
  semester_id : Nat
deriving DecidableEq

/-- The whole persistent state: catalog tables plus the generation ledger.
`next_subject_id` / `next_offering_id` model the autoincrement counters. -/
structure DB where
  semesters : List Semester
  streams : List Stream
  subjects : List Subject
  offerings : List SubjectOffering
  logs : List GenerationLog
  next_subject_id : Nat
  next_offering_id : Nat
deriving DecidableEq

/-- Errors surfaced by the handlers: `notFound` is `get_or_404`,
`badRequest d` is `abort(400, description=d)`, and `ledgerWriteFailed`
models an exception raised by the database commit inside
`log_frontpage_event`. -/
inductive ApiError where
  | notFound : ApiError
  | badRequest : String → ApiError
  | ledgerWriteFailed : ApiError
deriving DecidableEq

def MAX_LOG_RETURN : Nat := 200

/-- One serialized entry of `read_frontpage_logs`; `timestamp` models
`created_at.isoformat()` (order-preserving, so kept as the raw stamp). -/
structure LogView where
  timestamp : Nat
  name : String
  roll : String
  reg : String
  subject : String
  stream : String
  semester : String
  code : String
deriving DecidableEq

def viewOf (log : GenerationLog) : LogView :=
  { timestamp := log.created_at
    name := log.student_name
    roll := log.roll
    reg := log.registration
    subject := log.subject_name
    stream := log.stream_label
    semester := log.semester_label
    code := log.subject_code }

/-- `ORDER BY created_at DESC`: newer (larger stamp) first. -/
def newerFirst (a b : GenerationLog) : Prop :=
  b.created_at ≤ a.created_at

instance : DecidableRel newerFirst :=
  fun a b => Nat.decLe b.created_at a.created_at

instance : IsTotal GenerationLog newerFirst :=
  ⟨fun a b => by unfold newerFirst; exact Nat.le_total _ _⟩

instance : IsTrans GenerationLog newerFirst :=
  ⟨fun _ _ _ h h2 => by unfold newerFirst at *; exact Nat.le_trans h2 h⟩

/-- `count_frontpage_logs`. -/
def count_frontpage_logs (db : DB) : Nat :=
  db.logs.length

/-- `read_frontpage_logs`: order by `created_at` descending, apply the
SQL `LIMIT`, then serialize. -/
def read_frontpage_logs (db : DB) (limit : Nat) : List LogView :=
  (((db.logs.insertionSort newerFirst).take limit).map viewOf)

/-- `log_frontpage_event`: add the row and commit.  `ledgerOk = false`
models the commit raising (the exception is returned as an error for the
caller to propagate, leaving the persisted state unchanged). -/
def log_frontpage_event (db : DB) (entry : GenerationLog) (ledgerOk : Bool) :
    Except ApiError DB :=
  if ledgerOk then .ok { db with logs := db.logs ++ [entry] }
  else .error .ledgerWriteFailed

/-- `admin_logs` handler: clamp the requested limit into `[1, 200]`. -/
def admin_logs (db : DB) (limit : Int) : List LogView :=
  read_frontpage_logs db (max 1 (min (MAX_LOG_RETURN : Int) limit)).toNat

/-- The rendered artifact: the seven overlaid text lines (top to bottom),
the MIME type and the generated download file name. -/
structure Artifact where
  lines : List String
  mimetype : String
  download_name : String
deriving DecidableEq

/-- A POST to `/frontpages`. -/
structure GenRequest where
  name : String
  roll : String
  reg : String
  semester_id : Nat
  stream_id : Nat
  subject_id : Nat
  as_pdf : Bool
deriving DecidableEq

/-- The `generate_frontpage` POST handler.  `now` is the current UTC
timestamp; `ledgerOk` tells whether the ledger commit succeeds.  The
two inner lookups dereference the offering's foreign keys and are
unreachable failures while referential integrity holds. -/
def generate_frontpage (db : DB) (req : GenRequest) (now : Nat) (ledgerOk : Bool) :
    Except ApiError Artifact × DB :=
  let name := pyStrip req.name
  let roll := pyStrip req.roll
  let reg := pyStrip req.reg
  match db.streams.find? (fun st => st.id == req.stream_id) with
  | none => (.error .notFound, db)
  | some stream =>
    match db.offerings.find?
        (fun o => o.semester_id == req.semester_id && o.subject_id == req.subject_id) with
    | none => (.error (.badRequest "Invalid subject selection for semester"), db)
    | some offering =>
      match db.subjects.find? (fun s => s.id == offering.subject_id),
            db.semesters.find? (fun s => s.id == offering.semester_id) with
      | some subject, some semester =>
        let ext := if req.as_pdf then "pdf" else "png"
        let artifact : Artifact :=
          { lines := [name, roll, reg, stream.name, semester.label, subject.code, subject.name]
            mimetype := if req.as_pdf then "application/pdf" else "image/png"
            download_name := name ++ "-" ++ hyphenate subject.name ++ "-FrontPageCover." ++ ext }
        let entry : GenerationLog :=
          { created_at := now
            student_name := name
            roll := roll
            registration := reg
            subject_name := subject.name
            subject_code := subject.code
            stream_label := stream.name
            semester_label := semester.label
            subject_id := subject.id
            stream_id := stream.id
            semester_id := semester.id }
        match log_frontpage_event db entry ledgerOk with
        | .ok db1 => (.ok artifact, db1)
        | .error e => (.error e, db)
      | _, _ => (.error .notFound, db)

/-- `code = (payload.get("code") or "N/A").strip() or "N/A"`. -/
def normCode (code_raw : Option String) : String :=
  pyOrS (pyStrip (pyOr code_raw "N/A")) "N/A"

/-- `subject.code = code` seen from the subjects table: the row with the
matching primary key gets the new code. -/
def updCode (i : Nat) (c : String) (t : Subject) : Subject :=
  if t.id == i then { t with code := c } else t

/-- The PUT branch's `subject.name = subject_name; subject.code = code`
seen from the subjects table. -/
def updNameCode (i : Nat) (nm c : String) (t : Subject) : Subject :=
  if t.id == i then { t with name := nm, code := c } else t

/-- The PUT branch's `offering.semester_id = semester_id` seen from the
offerings table. -/
def updOfferingSem (oid semId : Nat) (o : SubjectOffering) : SubjectOffering :=
  if o.id == oid then { o with semester_id := semId } else o

/-- POST branch of `admin_subjects` (add-or-update a subject plus its
offering).  The payload fields arrive pre-parsed (`semester_id` already
converted to an integer); `none` or `0` fail the `if not semester_id`
truthiness check exactly as in the source. -/
def admin_subjects_post (db : DB) (name_raw code_raw : Option String)
    (semester_id : Option Nat) : Except ApiError (String × Nat) × DB :=
  let subject_name := pyStrip (pyOr name_raw "")
  let code := normCode code_raw
  if subject_name = "" then (.error (.badRequest "Subject name is required"), db)
  else
    match semester_id with
    | none => (.error (.badRequest "semester_id is required"), db)
    | some semId =>
      if semId = 0 then (.error (.badRequest "semester_id is required"), db)
      else
        let step : Subject × DB :=
          match db.subjects.find? (fun s => pyLower s.name == pyLower subject_name) with
          | some s =>
            ({ s with code := code },
             { db with subjects := db.subjects.map (updCode s.id code) })
          | none =>
            let s : Subject := { id := db.next_subject_id, name := subject_name, code := code }
            (s, { db with subjects := db.subjects ++ [s],
                          next_subject_id := db.next_subject_id + 1 })
        let subject := step.1
        let db1 := step.2
        match db1.offerings.find?
            (fun o => o.subject_id == subject.id && o.semester_id == semId) with
        | some o => (.ok ("Subject saved", o.id), db1)
        | none =>
          let o : SubjectOffering :=
            { id := db1.next_offering_id, subject_id := subject.id, semester_id := semId }
          (.ok ("Subject saved", o.id),
           { db1 with offerings := db1.offerings ++ [o],
                      next_offering_id := db1.next_offering_id + 1 })

/-- PUT branch of `admin_subjects` (rename / move a subject through one of
its offerings). -/
def admin_subjects_put (db : DB) (name_raw code_raw : Option String)
    (semester_id offering_id : Option Nat) : Except ApiError String × DB :=
  let subject_name := pyStrip (pyOr name_raw "")
  let code := normCode code_raw
  if subject_name = "" then (.error (.badRequest "Subject name is required"), db)
  else
    match semester_id with
    | none => (.error (.badRequest "semester_id is required"), db)
    | some semId =>
      if semId = 0 then (.error (.badRequest "semester_id is required"), db)
      else
        match offering_id with
        | none => (.error (.badRequest "offering_id is required"), db)
        | some oid =>
          if oid = 0 then (.error (.badRequest "offering_id is required"), db)
          else
            match db.offerings.find? (fun o => o.id == oid) with
            | none => (.error .notFound, db)
            | some offering =>
              match db.subjects.find? (fun s => s.id == offering.subject_id) with
              | none => (.error .notFound, db)
              | some subject =>
                match db.subjects.find?
                    (fun s => pyLower s.name == pyLower subject_name
                              && s.id != subject.id) with
                | some _ => (.error (.badRequest "Another subject with that name exists"), db)
                | none =>
                  (.ok "Subject updated",
                   { db with
                     subjects := db.subjects.map (updNameCode subject.id subject_name code)
                     offerings := db.offerings.map (updOfferingSem oid semId) })

/-- DELETE branch of `admin_subjects`: remove the offering, then remove the
subject too when no offering of it remains. -/
def admin_subjects_delete (db : DB) (offering_id : Option Nat) :
    Except ApiError String × DB :=
  match offering_id with
  | none => (.error (.badRequest "offering_id is required"), db)
  | some oid =>
    if oid = 0 then (.error (.badRequest "offering_id is required"), db)
    else
      match db.offerings.find? (fun o => o.id == oid) with
      | none => (.error .notFound, db)
      | some offering =>
        match db.subjects.find? (fun s => s.id == offering.subject_id) with
        | none => (.error .notFound, db)
        | some subject =>
          let offerings1 := db.offerings.filter (fun o => o.id != oid)
          if (offerings1.filter (fun o => o.subject_id == subject.id)).isEmpty then
            (.ok "Subject removed",
             { db with offerings := offerings1,
                       subjects := db.subjects.filter (fun s => s.id != subject.id) })
          else
            (.ok "Subject removed", { db with offerings := offerings1 })

/-- Modelled from the spec: the simpler (file-backed) variant of the
Orchestrator is part of this repository but not present under `src/`
(only the relational variant `generate_frontpage` is).  Per the design
notes, its display substitution is configured by a designated stream,
a designated lab name and an alternate label. -/
structure LabSubstitution where
  designated_stream_id : Nat
  designated_lab_name : String
  alternate_label : String
deriving DecidableEq

/-- Modelled from the spec: "when the stream is a specific designated one
and the subject name exactly matches a designated lab name, the subject
name is substituted with an alternate label before code lookup and
logging". -/
def applyLabSubstitution (cfg : LabSubstitution) (streamId : Nat) (subjectName : String) :
    String :=
  if streamId = cfg.designated_stream_id ∧ subjectName = cfg.designated_lab_name then
    cfg.alternate_label
  else subjectName

/-- Subject-code lookup of the simple variant: a name-to-code mapping with
the sentinel as default. -/
def codeLookup (codes : List (String × String)) (nm : String) : String :=
  match codes.lookup nm with
  | some c => c
  | none => "N/A"

/-- What the simple variant produces for one request: the subject name and
code drawn on the artifact and the ones written to the ledger record. -/
structure SimpleOutcome where
  rendered_subject : String
  rendered_code : String
  ledger_subject : String
  ledger_code : String
deriving DecidableEq

/-- Modelled from the spec: the validation step of the simple-variant
Orchestrator resolves the free-text subject name, applies the designated
lab-name substitution, then looks up the subject code; the substituted
name and looked-up code flow into both the rendered artifact and the
appended ledger record ("the source applies it before both"). -/
def generateSimple (cfg : LabSubstitution) (codes : List (String × String))
    (streamId : Nat) (subjectNameRaw : String) : SimpleOutcome :=
  let subjectName := applyLabSubstitution cfg streamId (pyStrip subjectNameRaw)
  let code := codeLookup codes subjectName
  { rendered_subject := subjectName
    rendered_code := code
    ledger_subject := subjectName
    ledger_code := code }

/-- A supplied subject code that is absent, empty or whitespace-only. -/
def BlankCode (c : Option String) : Prop :=
  c = none ∨ ∃ s, c = some s ∧ ∀ ch ∈ s.data, ch.isWhitespace = true

/-! ### Concrete states used to instantiate the theorems -/

/-- A small catalog: one stream, two semesters, subject 1 offered once
(offering 1 in semester 1) and subject 2 offered twice (offerings 2, 3). -/
def sampleDB : DB :=
  { semesters := [⟨1, "1st", 1⟩, ⟨2, "2nd", 2⟩]
    streams := [⟨1, "CSE", "CSE"⟩]
    subjects := [⟨1, "Data Structures", "CS201"⟩, ⟨2, "Algorithms", "CS301"⟩]
    offerings := [⟨1, 1, 1⟩, ⟨2, 2, 1⟩, ⟨3, 2, 2⟩]
    logs := []
    next_subject_id := 3
    next_offering_id := 4 }

/-- A ledger with three records created out of timestamp order. -/
def logsDB : DB :=
  { semesters := []
    streams := []
    subjects := []
    offerings := []
    logs :=
      [{ created_at := 5, student_name := "A", roll := "r1", registration := "g1"
         subject_name := "S1", subject_code := "C1", stream_label := "CSE"
         semester_label := "1st", subject_id := 1, stream_id := 1, semester_id := 1 },
       { created_at := 9, student_name := "B", roll := "r2", registration := "g2"
         subject_name := "S2", subject_code := "C2", stream_label := "CSE"
         semester_label := "1st", subject_id := 2, stream_id := 1, semester_id := 1 },
       { created_at := 1, student_name := "C", roll := "r3", registration := "g3"
         subject_name := "S3", subject_code := "C3", stream_label := "CSE"
         semester_label := "1st", subject_id := 3, stream_id := 1, semester_id := 1 }]
    next_subject_id := 4
    next_offering_id := 1 }

/-- A catalog with two case-insensitively distinct subjects sharing one
semester, used to exercise the rename-conflict path. -/
def conflictDB : DB :=
  { semesters := [⟨1, "1st", 1⟩]
    streams := []
    subjects := [⟨1, "Data Structures", "N/A"⟩, ⟨2, "Existing Other Subject", "N/A"⟩]
    offerings := [⟨1, 1, 1⟩, ⟨2, 2, 1⟩]
    logs := []
    next_subject_id := 3
    next_offering_id := 3 }

/-- A catalog with no streams at all (and no offerings). -/
def noStreamDB : DB :=
  { semesters := [⟨1, "1st", 1⟩]
    streams := []
    subjects := [⟨1, "Data Structures", "N/A"⟩]
    offerings := []
    logs := []
    next_subject_id := 2
    next_offering_id := 1 }

/-! ### Helper lemmas -/

theorem pyStrip_of_all_whitespace (s : String)
    (h : ∀ ch ∈ s.data, ch.isWhitespace = true) : pyStrip s = "" := by
  unfold pyStrip
  have h1 : s.data.dropWhile Char.isWhitespace = [] :=
    List.dropWhile_eq_nil_iff.mpr h
  rw [h1]
  rfl

/-- The code normalization `(payload.get("code") or "N/A").strip() or "N/A"`
maps every blank code to the sentinel. -/
theorem blank_code_normalizes (c : Option String) (hc : BlankCode c) :
    normCode c = "N/A" := by
  rcases hc with h | ⟨s, rfl, hws⟩
  · subst h; decide
  · by_cases hs : s = ""
    · subst hs; decide
    · have h1 : pyOr (some s) "N/A" = s := by simp [pyOr, hs]
      unfold normCode
      rw [h1, pyStrip_of_all_whitespace s hws]
      decide

/-- Updating a subject's code preserves its name. -/
theorem name_updCode (i : Nat) (c : String) (t : Subject) :
    (updCode i c t).name = t.name := by
  unfold updCode; split <;> rfl

/-- Updating a subject's code preserves its id. -/
theorem id_updCode (i : Nat) (c : String) (t : Subject) :
    (updCode i c t).id = t.id := by
  unfold updCode; split <;> rfl

/-- `updCode` at the matched subject itself. -/
theorem updCode_self (c : String) (t : Subject) :
    updCode t.id c t = { t with code := c } := by
  unfold updCode
  rw [if_pos (beq_self_eq_true t.id)]

/-- POST with a case-insensitive name match and an already existing
offering: only the matched subject's code changes. -/
theorem post_matched_found (db : DB) (n c : Option String) (sid : Nat)
    (s0 : Subject) (o : SubjectOffering)
    (hn : pyStrip (pyOr n "") ≠ "") (hsid : sid ≠ 0)
    (hfind : db.subjects.find?
      (fun s => pyLower s.name == pyLower (pyStrip (pyOr n ""))) = some s0)
    (hoff : db.offerings.find?
      (fun x => x.subject_id == s0.id && x.semester_id == sid) = some o) :
    admin_subjects_post db n c (some sid) =
      (.ok ("Subject saved", o.id),
       { db with subjects := db.subjects.map (updCode s0.id (normCode c)) }) := by
  simp [admin_subjects_post, hn, hsid, hfind, hoff]

/-- POST with a case-insensitive name match but no offering yet for the
requested semester: the matched subject's code changes and one offering
is appended. -/
theorem post_matched_new (db : DB) (n c : Option String) (sid : Nat) (s0 : Subject)
    (hn : pyStrip (pyOr n "") ≠ "") (hsid : sid ≠ 0)
    (hfind : db.subjects.find?
      (fun s => pyLower s.name == pyLower (pyStrip (pyOr n ""))) = some s0)
    (hoff : db.offerings.find?
      (fun x => x.subject_id == s0.id && x.semester_id == sid) = none) :
    admin_subjects_post db n c (some sid) =
      (.ok ("Subject saved", db.next_offering_id),
       { db with subjects := db.subjects.map (updCode s0.id (normCode c))
                 offerings := db.offerings ++ [⟨db.next_offering_id, s0.id, sid⟩]
                 next_offering_id := db.next_offering_id + 1 }) := by
  simp [admin_subjects_post, hn, hsid, hfind, hoff]

/-- POST with no case-insensitive name match and a (stale) offering already
carrying the about-to-be-assigned subject id: the subject is created but no
offering is added. -/
theorem post_fresh_found (db : DB) (n c : Option String) (sid : Nat)
    (o : SubjectOffering)
    (hn : pyStrip (pyOr n "") ≠ "") (hsid : sid ≠ 0)
    (hfind : db.subjects.find?
      (fun s => pyLower s.name == pyLower (pyStrip (pyOr n ""))) = none)
    (hoff : db.offerings.find?
      (fun x => x.subject_id == db.next_subject_id && x.semester_id == sid) = some o) :
    admin_subjects_post db n c (some sid) =
      (.ok ("Subject saved", o.id),
       { db with
         subjects := db.subjects ++ [⟨db.next_subject_id, pyStrip (pyOr n ""), normCode c⟩]
         next_subject_id := db.next_subject_id + 1 }) := by
  simp [admin_subjects_post, hn, hsid, hfind, hoff]

/-- POST with no case-insensitive name match and no offering for the new
subject id: the subject and its offering are both created. -/
theorem post_fresh_new (db : DB) (n c : Option String) (sid : Nat)
    (hn : pyStrip (pyOr n "") ≠ "") (hsid : sid ≠ 0)
    (hfind : db.subjects.find?
      (fun s => pyLower s.name == pyLower (pyStrip (pyOr n ""))) = none)
    (hoff : db.offerings.find?
      (fun x => x.subject_id == db.next_subject_id && x.semester_id == sid) = none) :
    admin_subjects_post db n c (some sid) =
      (.ok ("Subject saved", db.next_offering_id),
       { db with
         subjects := db.subjects ++ [⟨db.next_subject_id, pyStrip (pyOr n ""), normCode c⟩]
         next_subject_id := db.next_subject_id + 1
         offerings := db.offerings ++ [⟨db.next_offering_id, db.next_subject_id, sid⟩]
         next_offering_id := db.next_offering_id + 1 }) := by
  simp [admin_subjects_post, hn, hsid, hfind, hoff]

/-- State reached by `post_matched_found`. -/
theorem post_matched_found_db (db : DB) (n c : Option String) (sid : Nat)
    (s0 : Subject) (o : SubjectOffering)
    (hn : pyStrip (pyOr n "") ≠ "") (hsid : sid ≠ 0)
    (hfind : db.subjects.find?
      (fun s => pyLower s.name == pyLower (pyStrip (pyOr n ""))) = some s0)
    (hoff : db.offerings.find?
      (fun x => x.subject_id == s0.id && x.semester_id == sid) = some o) :
    (admin_subjects_post db n c (some sid)).2 =
      { db with subjects := db.subjects.map (updCode s0.id (normCode c)) } := by
  rw [post_matched_found db n c sid s0 o hn hsid hfind hoff]

/-- State reached by `post_matched_new`. -/
theorem post_matched_new_db (db : DB) (n c : Option String) (sid : Nat)
    (s0 : Subject)
    (hn : pyStrip (pyOr n "") ≠ "") (hsid : sid ≠ 0)
    (hfind : db.subjects.find?
      (fun s => pyLower s.name == pyLower (pyStrip (pyOr n ""))) = some s0)
    (hoff : db.offerings.find?
      (fun x => x.subject_id == s0.id && x.semester_id == sid) = none) :
    (admin_subjects_post db n c (some sid)).2 =
      { db with subjects := db.subjects.map (updCode s0.id (normCode c))
                offerings := db.offerings ++ [⟨db.next_offering_id, s0.id, sid⟩]
                next_offering_id := db.next_offering_id + 1 } := by
  rw [post_matched_new db n c sid s0 hn hsid hfind hoff]

/-- State reached by `post_fresh_new`. -/
theorem post_fresh_new_db (db : DB) (n c : Option String) (sid : Nat)
    (hn : pyStrip (pyOr n "") ≠ "") (hsid : sid ≠ 0)
    (hfind : db.subjects.find?
      (fun s => pyLower s.name == pyLower (pyStrip (pyOr n ""))) = none)
    (hoff : db.offerings.find?
      (fun x => x.subject_id == db.next_subject_id && x.semester_id == sid) = none) :
    (admin_subjects_post db n c (some sid)).2 =
      { db with
        subjects := db.subjects ++ [⟨db.next_subject_id, pyStrip (pyOr n ""), normCode c⟩]
        next_subject_id := db.next_subject_id + 1
        offerings := db.offerings ++ [⟨db.next_offering_id, db.next_subject_id, sid⟩]
        next_offering_id := db.next_offering_id + 1 } := by
  rw [post_fresh_new db n c sid hn hsid hfind hoff]

/-- Looking a subject up by name is unaffected by a code update. -/
theorem find?_name_map (l : List Subject) (i : Nat) (c q : String) :
    (l.map (updCode i c)).find? (fun s => pyLower s.name == q)
      = (l.find? (fun s => pyLower s.name == q)).map (updCode i c) := by
  have hp : ((fun s : Subject => pyLower s.name == q) ∘ updCode i c)
      = (fun s : Subject => pyLower s.name == q) := by
    funext t
    show (pyLower (updCode i c t).name == q) = (pyLower t.name == q)
    rw [name_updCode]
  rw [List.find?_map, hp]

/-- A filter by a predicate that at most one position satisfies has length
at most one. -/
theorem filter_length_le_one {α : Type} {l : List α} {p : α → Bool}
    (h : l.Pairwise (fun x y => ¬(p x = true ∧ p y = true))) :
    (l.filter p).length ≤ 1 := by
  induction l with
  | nil => simp
  | cons a l ih =>
    rcases List.pairwise_cons.mp h with ⟨ha, hl⟩
    by_cases hpa : p a = true
    · have : l.filter p = [] := by
        apply List.filter_eq_nil_iff.mpr
        intro x hx hpx
        exact ha x hx ⟨hpa, hpx⟩
      simp [List.filter_cons, hpa, this]
    · simp only [List.filter_cons, hpa]
      simpa using ih hl

/-- When the pair-uniqueness constraint holds and one offering of the pair
is present, the pair is stored exactly once. -/
theorem filter_pair_length_one {l : List SubjectOffering} {i semId : Nat}
    (o : SubjectOffering) (hmem : o ∈ l)
    (hq : (o.subject_id == i && o.semester_id == semId) = true)
    (hU : l.Pairwise
      (fun x y => ¬(x.subject_id = y.subject_id ∧ x.semester_id = y.semester_id))) :
    (l.filter (fun x => x.subject_id == i && x.semester_id == semId)).length = 1 := by
  apply Nat.le_antisymm
  · apply filter_length_le_one
    refine hU.imp ?_
    intro a b hab hcontra
    apply hab
    rcases hcontra with ⟨ha, hb⟩
    simp only [Bool.and_eq_true, beq_iff_eq] at ha hb
    exact ⟨ha.1.trans hb.1.symm, ha.2.trans hb.2.symm⟩
  · have hmemf : o ∈ l.filter (fun x => x.subject_id == i && x.semester_id == semId) :=
      List.mem_filter.mpr ⟨hmem, hq⟩
    have := List.length_pos.mpr (List.ne_nil_of_mem hmemf)
    omega

/-- Appending the pair's first offering to a table that did not contain the
pair stores it exactly once. -/
theorem filter_pair_append_one {l : List SubjectOffering} {i semId : Nat}
    (hnone : l.find? (fun x => x.subject_id == i && x.semester_id == semId) = none)
    (onew : SubjectOffering)
    (hq : (onew.subject_id == i && onew.semester_id == semId) = true) :
    ((l ++ [onew]).filter
      (fun x => x.subject_id == i && x.semester_id == semId)).length = 1 := by
  rw [List.filter_append]
  have h1 : l.filter (fun x => x.subject_id == i && x.semester_id == semId) = [] :=
    List.filter_eq_nil_iff.mpr (List.find?_eq_none.mp hnone)
  rw [h1]
  simp [List.filter_cons, hq]

/-! ### Claim theorems -/

/-- C1: on a request that passes validation and renders successfully, a
failing ledger append makes `generate_frontpage` return the ledger error
and no artifact: the exception from `log_frontpage_event` propagates
instead of being surfaced as a non-fatal warning, so a ledger-write
failure does block artifact delivery, contradicting the claim. -/
theorem ledger_failure_blocks_delivery :
    generate_frontpage sampleDB ⟨"Asha", "21CS01", "REG001", 1, 1, 1, false⟩ 100 false
      = (.error .ledgerWriteFailed, sampleDB) ∧
    generate_frontpage sampleDB ⟨"Asha", "21CS01", "REG001", 1, 1, 1, false⟩ 100 true
      ≠ (.error .ledgerWriteFailed, sampleDB) := by
  constructor
  · rfl
  · intro h
    exact absurd (congrArg (fun r => r.2.logs.length) h) (by decide)

/-- C2 (counterexample): a request whose (subjectId, semesterId) pair has
no offering but whose streamId is also unknown fails with the 404
NotFound of the stream lookup, not with InvalidSelection. -/
theorem unknown_stream_not_invalid_selection :
    (noStreamDB.offerings.find? (fun o => o.semester_id == 1 && o.subject_id == 1) = none) ∧
    (generate_frontpage noStreamDB ⟨"A", "B", "C", 1, 1, 1, false⟩ 0 true).1
      = .error .notFound ∧
    ApiError.notFound ≠ ApiError.badRequest "Invalid subject selection for semester" := by
  refine ⟨rfl, rfl, ?_⟩
  decide

/-- C2 (amended): provided the streamId resolves, a request whose
(subjectId, semesterId) pair has no offering fails with InvalidSelection
(the 400 "Invalid subject selection for semester") and leaves the state —
in particular the ledger — unchanged, before any rendering work. -/
theorem invalid_selection_rejected (db : DB) (req : GenRequest) (now : Nat)
    (ledgerOk : Bool) (st : Stream)
    (hstream : db.streams.find? (fun s => s.id == req.stream_id) = some st)
    (hoff : db.offerings.find?
      (fun o => o.semester_id == req.semester_id && o.subject_id == req.subject_id) = none) :
    generate_frontpage db req now ledgerOk =
      (.error (.badRequest "Invalid subject selection for semester"), db) := by
  unfold generate_frontpage
  rw [hstream, hoff]

/-- Witness for the amended C2 theorem at a concrete state. -/
theorem invalid_selection_rejected_witness :
    generate_frontpage sampleDB ⟨"A", "B", "C", 2, 1, 1, false⟩ 5 true =
      (.error (.badRequest "Invalid subject selection for semester"), sampleDB) :=
  invalid_selection_rejected sampleDB ⟨"A", "B", "C", 2, 1, 1, false⟩ 5 true
    ⟨1, "CSE", "CSE"⟩ (by decide) (by decide)

/-- C10: `generate_frontpage` never mutates the catalog (streams,
semesters, subjects, offerings and both id counters are untouched), a
successful call appends exactly one record to the ledger, and a failed
call appends nothing. -/
theorem generate_preserves_catalog (db : DB) (req : GenRequest) (now : Nat)
    (ledgerOk : Bool) :
    (generate_frontpage db req now ledgerOk).2.streams = db.streams ∧
    (generate_frontpage db req now ledgerOk).2.semesters = db.semesters ∧
    (generate_frontpage db req now ledgerOk).2.subjects = db.subjects ∧
    (generate_frontpage db req now ledgerOk).2.offerings = db.offerings ∧
    (generate_frontpage db req now ledgerOk).2.next_subject_id = db.next_subject_id ∧
    (generate_frontpage db req now ledgerOk).2.next_offering_id = db.next_offering_id ∧
    (∀ a, (generate_frontpage db req now ledgerOk).1 = .ok a →
      ∃ entry, (generate_frontpage db req now ledgerOk).2.logs = db.logs ++ [entry]) ∧
    (∀ e, (generate_frontpage db req now ledgerOk).1 = .error e →
      (generate_frontpage db req now ledgerOk).2.logs = db.logs) := by
  unfold generate_frontpage log_frontpage_event
  cases hs : db.streams.find? (fun st => st.id == req.stream_id) with
  | none => simp [hs]
  | some stream =>
    cases ho : db.offerings.find?
        (fun o => o.semester_id == req.semester_id && o.subject_id == req.subject_id) with
    | none => simp [hs, ho]
    | some offering =>
      cases hsub : db.subjects.find? (fun s => s.id == offering.subject_id) with
      | none => simp [hs, ho, hsub]
      | some subject =>
        cases hsem : db.semesters.find? (fun s => s.id == offering.semester_id) with
        | none => simp [hs, ho, hsub, hsem]
        | some semester =>
          cases ledgerOk with
          | false => simp [hs, ho, hsub, hsem]
          | true => simp [hs, ho, hsub, hsem]

/-- Witness for C10 at a concrete state and request. -/
theorem generate_preserves_catalog_witness :
    (generate_frontpage sampleDB ⟨"Asha", "21CS01", "REG001", 1, 1, 1, true⟩ 7 true).2.subjects
      = sampleDB.subjects :=
  (generate_preserves_catalog sampleDB ⟨"Asha", "21CS01", "REG001", 1, 1, 1, true⟩ 7 true).2.2.1

/-- C7: `admin_logs` returns at most `clamp(limit, 1, 200)` records (so at
most `min(limit, 200)` whenever `limit ≥ 1`), ordered newest-first by
creation timestamp, and every returned view comes from a ledger record. -/
theorem recent_logs_clamped_newest_first (db : DB) (limit : Int) :
    (admin_logs db limit).length ≤ (max 1 (min (MAX_LOG_RETURN : Int) limit)).toNat ∧
    ((1 : Int) ≤ limit → ((admin_logs db limit).length : Int) ≤ min limit 200) ∧
    List.Sorted (fun u v : LogView => v.timestamp ≤ u.timestamp) (admin_logs db limit) ∧
    (∀ v ∈ admin_logs db limit, ∃ log ∈ db.logs, v = viewOf log) := by
  have hlen : ∀ k : Nat, (read_frontpage_logs db k).length ≤ k := by
    intro k
    unfold read_frontpage_logs
    rw [List.length_map, List.length_take]
    exact Nat.min_le_left _ _
  have h1 : (admin_logs db limit).length ≤ (max 1 (min (MAX_LOG_RETURN : Int) limit)).toNat :=
    hlen _
  refine ⟨h1, ?_, ?_, ?_⟩
  · intro hlim
    have : (MAX_LOG_RETURN : Int) = 200 := by decide
    rw [this] at h1
    omega
  · unfold admin_logs read_frontpage_logs
    have hsorted : List.Sorted newerFirst (db.logs.insertionSort newerFirst) :=
      List.sorted_insertionSort newerFirst db.logs
    have htake : List.Pairwise newerFirst
        ((db.logs.insertionSort newerFirst).take
          (max 1 (min (MAX_LOG_RETURN : Int) limit)).toNat) :=
      List.Pairwise.sublist (List.take_sublist _ _) hsorted
    exact htake.map viewOf (fun a b h => h)
  · intro v hv
    unfold admin_logs read_frontpage_logs at hv
    rcases List.mem_map.mp hv with ⟨log, hmem, rfl⟩
    have hsort : log ∈ db.logs.insertionSort newerFirst :=
      (List.take_sublist _ _).subset hmem
    exact ⟨log, (List.mem_insertionSort newerFirst).mp hsort, rfl⟩

/-- Witness for C7 at a concrete ledger and limit. -/
theorem recent_logs_clamped_newest_first_witness :
    (admin_logs logsDB 2).length ≤ (max 1 (min (MAX_LOG_RETURN : Int) 2)).toNat :=
  (recent_logs_clamped_newest_first logsDB 2).1

/-- C8: in the simple-variant Orchestrator (modelled from the spec), when
the stream is the designated one and the stripped subject name exactly
matches the designated lab name, the alternate label replaces the subject
name before the code lookup and is what both the rendered artifact and
the ledger record carry. -/
theorem designated_lab_substitution (cfg : LabSubstitution)
    (codes : List (String × String)) (streamId : Nat) (raw : String)
    (hstream : streamId = cfg.designated_stream_id)
    (hname : pyStrip raw = cfg.designated_lab_name) :
    (generateSimple cfg codes streamId raw).rendered_subject = cfg.alternate_label ∧
    (generateSimple cfg codes streamId raw).ledger_subject = cfg.alternate_label ∧
    (generateSimple cfg codes streamId raw).rendered_code
      = codeLookup codes cfg.alternate_label ∧
    (generateSimple cfg codes streamId raw).ledger_code
      = codeLookup codes cfg.alternate_label := by
  unfold generateSimple applyLabSubstitution
  rw [hstream, hname]
  simp

/-- Witness for C8 at a concrete configuration. -/
theorem designated_lab_substitution_witness :
    (generateSimple ⟨4, "Communication Lab", "Technical Report Writing"⟩
        [("Technical Report Writing", "HU481")] 4 " Communication Lab ").ledger_subject
      = "Technical Report Writing" :=
  (designated_lab_substitution ⟨4, "Communication Lab", "Technical Report Writing"⟩
    [("Technical Report Writing", "HU481")] 4 " Communication Lab " (by decide)
    (by decide)).2.1

/-- C9: a POST whose supplied subject code is absent, empty or
whitespace-only stores the sentinel code "N/A" on the touched subject
(the one whose name case-insensitively matches the request). -/
theorem blank_code_sentinel (db : DB) (n c : Option String) (sid : Nat)
    (hn : pyStrip (pyOr n "") ≠ "") (hsid : sid ≠ 0) (hc : BlankCode c) :
    ∃ s ∈ (admin_subjects_post db n c (some sid)).2.subjects,
      pyLower s.name = pyLower (pyStrip (pyOr n "")) ∧ s.code = "N/A" := by
  have hcode := blank_code_normalizes c hc
  cases hfind : db.subjects.find?
      (fun s => pyLower s.name == pyLower (pyStrip (pyOr n ""))) with
  | some s0 =>
    have hname : pyLower s0.name = pyLower (pyStrip (pyOr n "")) := by
      simpa using List.find?_some hfind
    have hmem : s0 ∈ db.subjects := List.mem_of_find?_eq_some hfind
    have hmem2 := List.mem_map_of_mem (updCode s0.id (normCode c)) hmem
    rw [updCode_self] at hmem2
    cases hoff : db.offerings.find?
        (fun x => x.subject_id == s0.id && x.semester_id == sid) with
    | some o =>
      rw [post_matched_found db n c sid s0 o hn hsid hfind hoff]
      exact ⟨{ s0 with code := normCode c }, hmem2, hname, hcode⟩
    | none =>
      rw [post_matched_new db n c sid s0 hn hsid hfind hoff]
      exact ⟨{ s0 with code := normCode c }, hmem2, hname, hcode⟩
  | none =>
    cases hoff : db.offerings.find?
        (fun x => x.subject_id == db.next_subject_id && x.semester_id == sid) with
    | some o =>
      rw [post_fresh_found db n c sid o hn hsid hfind hoff]
      exact ⟨⟨db.next_subject_id, pyStrip (pyOr n ""), normCode c⟩,
        List.mem_append_right _ (List.mem_singleton.mpr rfl), rfl, hcode⟩
    | none =>
      rw [post_fresh_new db n c sid hn hsid hfind hoff]
      exact ⟨⟨db.next_subject_id, pyStrip (pyOr n ""), normCode c⟩,
        List.mem_append_right _ (List.mem_singleton.mpr rfl), rfl, hcode⟩

/-- Witness for C9: a whitespace-only code stored through a concrete POST. -/
theorem blank_code_sentinel_witness :
    ∃ s ∈ (admin_subjects_post sampleDB (some "Data Structures") (some "   ")
        (some 1)).2.subjects,
      pyLower s.name = pyLower (pyStrip (pyOr (some "Data Structures") "")) ∧
      s.code = "N/A" :=
  blank_code_sentinel sampleDB (some "Data Structures") (some "   ") 1
    (by decide) (by decide) (Or.inr ⟨"   ", rfl, by decide⟩)

/-- C6 (counterexample): a POST whose name matches an existing subject
case-insensitively does not re-case the stored name: after adding
"DATA STRUCTURES" over the existing "Data Structures", the displayed name
is still "Data Structures", not the casing supplied by the most recent
write. -/
theorem add_subject_casing_counterexample :
    (admin_subjects_post noStreamDB (some "DATA STRUCTURES") (some "CS201")
        (some 1)).2.subjects.map Subject.name = ["Data Structures"] ∧
    "Data Structures" ≠ "DATA STRUCTURES" := by
  constructor
  · rfl
  · decide

/-- C6 (amended): a POST whose name case-insensitively matches an existing
subject creates no new Subject record and updates the matched subject's
code, but every stored subject name — including its casing — is left
exactly as it was (only PUT re-cases a name). -/
theorem add_subject_preserves_existing_casing (db : DB) (n c : Option String)
    (sid : Nat) (s0 : Subject)
    (hn : pyStrip (pyOr n "") ≠ "") (hsid : sid ≠ 0)
    (hfind : db.subjects.find?
      (fun s => pyLower s.name == pyLower (pyStrip (pyOr n ""))) = some s0) :
    (admin_subjects_post db n c (some sid)).2.subjects.map Subject.name
      = db.subjects.map Subject.name ∧
    (admin_subjects_post db n c (some sid)).2.subjects.length
      = db.subjects.length ∧
    { s0 with code := normCode c } ∈ (admin_subjects_post db n c (some sid)).2.subjects := by
  have hmem : s0 ∈ db.subjects := List.mem_of_find?_eq_some hfind
  have hmem2 := List.mem_map_of_mem (updCode s0.id (normCode c)) hmem
  rw [updCode_self] at hmem2
  have hnames : (db.subjects.map (updCode s0.id (normCode c))).map Subject.name
      = db.subjects.map Subject.name := by
    rw [List.map_map]
    exact List.map_congr_left (fun t _ => name_updCode s0.id (normCode c) t)
  cases hoff : db.offerings.find?
      (fun x => x.subject_id == s0.id && x.semester_id == sid) with
  | some o =>
    rw [post_matched_found db n c sid s0 o hn hsid hfind hoff]
    exact ⟨hnames, List.length_map _ _, hmem2⟩
  | none =>
    rw [post_matched_new db n c sid s0 hn hsid hfind hoff]
    exact ⟨hnames, List.length_map _ _, hmem2⟩

/-- Witness for the amended C6 theorem at a concrete state. -/
theorem add_subject_preserves_existing_casing_witness :
    (admin_subjects_post noStreamDB (some "Data structures") (some "CS201")
        (some 1)).2.subjects.map Subject.name
      = noStreamDB.subjects.map Subject.name :=
  (add_subject_preserves_existing_casing noStreamDB (some "Data structures")
    (some "CS201") 1 ⟨1, "Data Structures", "N/A"⟩ (by decide) (by decide)
    (by decide)).1

/-- C5: a PUT whose new name case-insensitively collides with a different
existing subject fails with the Conflict error (400 "Another subject with
that name exists") and leaves the whole state — in particular both
subjects — unchanged. -/
theorem rename_conflict_leaves_state_unchanged (db : DB) (n c : Option String)
    (semId oid : Nat) (off : SubjectOffering) (subj other : Subject)
    (hn : pyStrip (pyOr n "") ≠ "") (hsem : semId ≠ 0) (hoid : oid ≠ 0)
    (hoff : db.offerings.find? (fun o => o.id == oid) = some off)
    (hsubj : db.subjects.find? (fun s => s.id == off.subject_id) = some subj)
    (hconf : db.subjects.find?
      (fun s => pyLower s.name == pyLower (pyStrip (pyOr n ""))
                && s.id != subj.id) = some other) :
    admin_subjects_put db n c (some semId) (some oid) =
      (.error (.badRequest "Another subject with that name exists"), db) := by
  simp [admin_subjects_put, hn, hsem, hoid, hoff, hsubj, hconf]

/-- Witness for C5: renaming "Data Structures" to a name already used by
the distinct subject "Existing Other Subject" fails and changes nothing. -/
theorem rename_conflict_leaves_state_unchanged_witness :
    admin_subjects_put conflictDB (some "existing other subject") (some "CS999")
        (some 1) (some 1) =
      (.error (.badRequest "Another subject with that name exists"), conflictDB) :=
  rename_conflict_leaves_state_unchanged conflictDB (some "existing other subject")
    (some "CS999") 1 1 ⟨1, 1, 1⟩ ⟨1, "Data Structures", "N/A"⟩
    ⟨2, "Existing Other Subject", "N/A"⟩ (by decide) (by decide) (by decide)
    (by decide) (by decide) (by decide)

/-- C3: deleting an offering removes it, and cascades onto the subject
exactly when it was the subject's last offering: if every offering of the
subject had the deleted primary key, the subject is gone afterwards; if
another offering of the subject survives, the subjects table is untouched. -/
theorem delete_offering_cascade (db : DB) (oid : Nat) (off : SubjectOffering)
    (subj : Subject)
    (hoid : oid ≠ 0)
    (hoff : db.offerings.find? (fun o => o.id == oid) = some off)
    (hsubj : db.subjects.find? (fun s => s.id == off.subject_id) = some subj) :
    (∀ o ∈ (admin_subjects_delete db (some oid)).2.offerings, o.id ≠ oid) ∧
    ((∀ o ∈ db.offerings, o.subject_id = off.subject_id → o.id = oid) →
      ∀ s ∈ (admin_subjects_delete db (some oid)).2.subjects,
        s.id ≠ off.subject_id) ∧
    ((∃ o ∈ db.offerings, o.subject_id = off.subject_id ∧ o.id ≠ oid) →
      (admin_subjects_delete db (some oid)).2.subjects = db.subjects) := by
  have hsubid : subj.id = off.subject_id := by
    simpa using List.find?_some hsubj
  by_cases hcond : ∀ a ∈ db.offerings, a.subject_id = subj.id → a.id = oid
  · have hdel : (admin_subjects_delete db (some oid)).2 =
        { db with offerings := db.offerings.filter (fun o => o.id != oid),
                  subjects := db.subjects.filter (fun s => s.id != subj.id) } := by
      simp only [admin_subjects_delete, hoid, hoff, hsubj]
      simp
      rw [if_pos hcond]
    rw [hdel]
    refine ⟨?_, ?_, ?_⟩
    · intro o ho
      have := (List.mem_filter.mp ho).2
      simpa using this
    · intro _ s hs
      have := (List.mem_filter.mp hs).2
      rw [← hsubid]
      simpa using this
    · rintro ⟨o, ho, hosub, hone⟩
      exact absurd (hcond o ho (hosub.trans hsubid.symm)) hone
  · have hdel : (admin_subjects_delete db (some oid)).2 =
        { db with offerings := db.offerings.filter (fun o => o.id != oid) } := by
      simp only [admin_subjects_delete, hoid, hoff, hsubj]
      simp
      rw [if_neg hcond]
    rw [hdel]
    refine ⟨?_, ?_, fun _ => rfl⟩
    · intro o ho
      have := (List.mem_filter.mp ho).2
      simpa using this
    · intro hall
      exact absurd (fun a ha hsub => hall a ha (hsub.trans hsubid)) hcond

/-- Witness for C3: deleting offering 2, one of subject 2's two offerings
in the sample catalog, leaves the subjects table unchanged. -/
theorem delete_offering_cascade_witness :
    (admin_subjects_delete sampleDB (some 2)).2.subjects = sampleDB.subjects :=
  (delete_offering_cascade sampleDB 2 ⟨2, 2, 1⟩ ⟨2, "Algorithms", "CS301"⟩
    (by decide) (by decide) (by decide)).2.2
    ⟨⟨3, 2, 2⟩, by decide, rfl, by decide⟩

/-- C4: on a well-formed catalog (fresh id counter, offerings referencing
live subjects, the unique constraints on (subject, semester) pairs and on
case-insensitive subject names), POSTing the same subject and semester
twice stores exactly one offering for the pair: the second call adds no
offering at all, and after the first call the matched (or created) subject
has exactly one offering for the requested semester. -/
theorem add_subject_offering_idempotent (db : DB) (n c : Option String) (sid : Nat)
    (hn : pyStrip (pyOr n "") ≠ "") (hsid : sid ≠ 0)
    (hfresh : ∀ s ∈ db.subjects, s.id ≠ db.next_subject_id)
    (hfk : ∀ o ∈ db.offerings, ∃ s ∈ db.subjects, s.id = o.subject_id)
    (hpairU : db.offerings.Pairwise
      (fun x y => ¬(x.subject_id = y.subject_id ∧ x.semester_id = y.semester_id)))
    (hnameU : ∀ s ∈ db.subjects, ∀ t ∈ db.subjects,
      pyLower s.name = pyLower t.name → s = t) :
    (admin_subjects_post (admin_subjects_post db n c (some sid)).2
        n c (some sid)).2.offerings
      = (admin_subjects_post db n c (some sid)).2.offerings ∧
    ∀ s ∈ (admin_subjects_post db n c (some sid)).2.subjects,
      pyLower s.name = pyLower (pyStrip (pyOr n "")) →
        ((admin_subjects_post db n c (some sid)).2.offerings.filter
          (fun o => o.subject_id == s.id && o.semester_id == sid)).length = 1 := by
  cases hfind : db.subjects.find?
      (fun s => pyLower s.name == pyLower (pyStrip (pyOr n ""))) with
  | some s0 =>
    have hps0 : pyLower s0.name = pyLower (pyStrip (pyOr n "")) := by
      simpa using List.find?_some hfind
    have hmem0 : s0 ∈ db.subjects := List.mem_of_find?_eq_some hfind
    have hid_matched : ∀ s ∈ db.subjects.map (updCode s0.id (normCode c)),
        pyLower s.name = pyLower (pyStrip (pyOr n "")) → s.id = s0.id := by
      intro s hs hname
      rcases List.mem_map.mp hs with ⟨t, ht, rfl⟩
      rw [name_updCode] at hname
      rw [id_updCode]
      have ht0 : t = s0 := hnameU t ht s0 hmem0 (hname.trans hps0.symm)
      rw [ht0]
    have hfind2 : ({ db with
          subjects := db.subjects.map (updCode s0.id (normCode c)) } : DB).subjects.find?
        (fun s => pyLower s.name == pyLower (pyStrip (pyOr n "")))
          = some { s0 with code := normCode c } := by
      show (db.subjects.map (updCode s0.id (normCode c))).find? _ = _
      rw [find?_name_map, hfind]
      rw [Option.map_some', updCode_self]
    cases hoff : db.offerings.find?
        (fun x => x.subject_id == s0.id && x.semester_id == sid) with
    | some o =>
      have hq := List.find?_some hoff
      have homem := List.mem_of_find?_eq_some hoff
      have hdb1 := post_matched_found_db db n c sid s0 o hn hsid hfind hoff
      have hoff2 : ({ db with
            subjects := db.subjects.map (updCode s0.id (normCode c)) } : DB).offerings.find?
          (fun x => x.subject_id == ({ s0 with code := normCode c } : Subject).id
                    && x.semester_id == sid) = some o := hoff
      have hdb2 := post_matched_found_db _ n c sid _ o hn hsid hfind2 hoff2
      rw [hdb1]
      rw [hdb2]
      refine ⟨rfl, ?_⟩
      intro s hs hname
      have hs2 : s ∈ db.subjects.map (updCode s0.id (normCode c)) := hs
      have hid := hid_matched s hs2 hname
      rw [hid]
      show (db.offerings.filter
        (fun x => x.subject_id == s0.id && x.semester_id == sid)).length = 1
      exact filter_pair_length_one o homem hq hpairU
    | none =>
      have hdb1 := post_matched_new_db db n c sid s0 hn hsid hfind hoff
      have hoff2 : ({ db with
            subjects := db.subjects.map (updCode s0.id (normCode c))
            offerings := db.offerings ++ [⟨db.next_offering_id, s0.id, sid⟩]
            next_offering_id := db.next_offering_id + 1 } : DB).offerings.find?
          (fun x => x.subject_id == ({ s0 with code := normCode c } : Subject).id
                    && x.semester_id == sid)
            = some ⟨db.next_offering_id, s0.id, sid⟩ := by
        show (db.offerings ++ [(⟨db.next_offering_id, s0.id, sid⟩ : SubjectOffering)]).find?
          (fun x => x.subject_id == s0.id && x.semester_id == sid)
            = some (⟨db.next_offering_id, s0.id, sid⟩ : SubjectOffering)
        rw [List.find?_append, hoff]
        simp
      have hfind2b : ({ db with
            subjects := db.subjects.map (updCode s0.id (normCode c))
            offerings := db.offerings ++ [⟨db.next_offering_id, s0.id, sid⟩]
            next_offering_id := db.next_offering_id + 1 } : DB).subjects.find?
          (fun s => pyLower s.name == pyLower (pyStrip (pyOr n "")))
            = some { s0 with code := normCode c } := hfind2
      have hdb2 := post_matched_found_db _ n c sid _ _ hn hsid hfind2b hoff2
      rw [hdb1]
      rw [hdb2]
      refine ⟨rfl, ?_⟩
      intro s hs hname
      have hs2 : s ∈ db.subjects.map (updCode s0.id (normCode c)) := hs
      have hid := hid_matched s hs2 hname
      rw [hid]
      show ((db.offerings ++ [(⟨db.next_offering_id, s0.id, sid⟩ : SubjectOffering)]).filter
        (fun x => x.subject_id == s0.id && x.semester_id == sid)).length = 1
      exact filter_pair_append_one hoff ⟨db.next_offering_id, s0.id, sid⟩ (by simp)
  | none =>
    have hnone2 : db.offerings.find?
        (fun x => x.subject_id == db.next_subject_id && x.semester_id == sid) = none := by
      rw [List.find?_eq_none]
      intro x hx hqx
      rcases hfk x hx with ⟨s, hs, hsid2⟩
      have hx1 : x.subject_id = db.next_subject_id := by
        simp only [Bool.and_eq_true, beq_iff_eq] at hqx
        exact hqx.1
      exact hfresh s hs (hsid2.trans hx1)
    have hdb1 := post_fresh_new_db db n c sid hn hsid hfind hnone2
    have hfind2 : ({ db with
          subjects := db.subjects
            ++ [⟨db.next_subject_id, pyStrip (pyOr n ""), normCode c⟩]
          next_subject_id := db.next_subject_id + 1
          offerings := db.offerings ++ [⟨db.next_offering_id, db.next_subject_id, sid⟩]
          next_offering_id := db.next_offering_id + 1 } : DB).subjects.find?
        (fun s => pyLower s.name == pyLower (pyStrip (pyOr n "")))
          = some ⟨db.next_subject_id, pyStrip (pyOr n ""), normCode c⟩ := by
      show (db.subjects
          ++ [(⟨db.next_subject_id, pyStrip (pyOr n ""), normCode c⟩ : Subject)]).find?
        (fun s => pyLower s.name == pyLower (pyStrip (pyOr n "")))
          = some (⟨db.next_subject_id, pyStrip (pyOr n ""), normCode c⟩ : Subject)
      rw [List.find?_append, hfind]
      simp
    have hoff2 : ({ db with
          subjects := db.subjects
            ++ [⟨db.next_subject_id, pyStrip (pyOr n ""), normCode c⟩]
          next_subject_id := db.next_subject_id + 1
          offerings := db.offerings ++ [⟨db.next_offering_id, db.next_subject_id, sid⟩]
          next_offering_id := db.next_offering_id + 1 } : DB).offerings.find?
        (fun x => x.subject_id
            == (⟨db.next_subject_id, pyStrip (pyOr n ""), normCode c⟩ : Subject).id
          && x.semester_id == sid)
          = some ⟨db.next_offering_id, db.next_subject_id, sid⟩ := by
      show (db.offerings
          ++ [(⟨db.next_offering_id, db.next_subject_id, sid⟩ : SubjectOffering)]).find?
        (fun x => x.subject_id == db.next_subject_id && x.semester_id == sid)
          = some (⟨db.next_offering_id, db.next_subject_id, sid⟩ : SubjectOffering)
      rw [List.find?_append, hnone2]
      simp
    have hdb2 := post_matched_found_db _ n c sid _ _ hn hsid hfind2 hoff2
    rw [hdb1]
    rw [hdb2]
    refine ⟨rfl, ?_⟩
    intro s hs hname
    have hs2 : s ∈ db.subjects
        ++ [⟨db.next_subject_id, pyStrip (pyOr n ""), normCode c⟩] := hs
    rcases List.mem_append.mp hs2 with h | h
    · exact absurd (beq_iff_eq.mpr hname) (List.find?_eq_none.mp hfind s h)
    · have hse := List.mem_singleton.mp h
      subst hse
      show ((db.offerings
          ++ [(⟨db.next_offering_id, db.next_subject_id, sid⟩ : SubjectOffering)]).filter
        (fun x => x.subject_id == db.next_subject_id && x.semester_id == sid)).length = 1
      exact filter_pair_append_one hnone2
        ⟨db.next_offering_id, db.next_subject_id, sid⟩ (by simp)

/-- Witness for C4: posting a fresh subject twice into the sample catalog
adds no offering on the second call. -/
theorem add_subject_offering_idempotent_witness :
    (admin_subjects_post (admin_subjects_post sampleDB (some "Linear Algebra")
        (some "MA201") (some 1)).2 (some "Linear Algebra") (some "MA201")
        (some 1)).2.offerings
      = (admin_subjects_post sampleDB (some "Linear Algebra") (some "MA201")
        (some 1)).2.offerings :=
  (add_subject_offering_idempotent sampleDB (some "Linear Algebra") (some "MA201") 1
    (by decide) (by decide) (by decide) (by decide) (by decide) (by decide)).1

end Frontpage
